import Mathlib

/-
Verification of the feed-ingestion and subscriber-notification pipeline of the
ciepd-site backend (backend/server.js), as a shallow embedding in Lean 4.

JavaScript strings are modelled as lists of characters (JStr).  The JS string
operations used by the pipeline (toLowerCase, includes, trim, startsWith,
substring(1), concatenation, truthiness) are embedded below; possibly-undefined
values are modelled as Option JStr, where JS truthiness of a string is
"present and non-empty".

Side effects (sends, mock logs, database reads) are modelled as explicit
effect values returned by the embedded functions; thrown JS exceptions are
modelled with Except, and try/catch blocks as matches on the Except value.
Wall-clock timestamps, message-body date formatting and the real network are
outside the embedding: an Alert keeps its text and url (the fields the
deduplication logic reads), and fetching a feed is an oracle parameter
returning either the parsed items or a failure.
-/

namespace Ciepd

/-- JS string, modelled as a list of characters. -/
abbrev JStr := List Char

/-- JS String.prototype.toLowerCase (ASCII, which covers all data in the pipeline). -/
def jsToLower (s : JStr) : JStr := s.map Char.toLower

/-- JS String.prototype.startsWith: first argument is the string, second the pattern. -/
def startsWithStr : JStr → JStr → Bool
  | _, [] => true
  | [], _ :: _ => false
  | c :: cs, p :: ps => c == p && startsWithStr cs ps

/-- JS String.prototype.includes: jsIncludes s sub is true when sub occurs inside s. -/
def jsIncludes : JStr → JStr → Bool
  | [], sub => startsWithStr [] sub
  | c :: cs, sub => startsWithStr (c :: cs) sub || jsIncludes cs sub

/-- Whitespace characters removed by JS String.prototype.trim on the data involved. -/
def isJsSpace (c : Char) : Bool := c == ' ' || c == '\t' || c == '\n' || c == '\r'

/-- Leading-whitespace removal (first half of JS trim). -/
def jsTrimHead (s : JStr) : JStr := s.dropWhile isJsSpace

/-- Trailing-whitespace removal (second half of JS trim). -/
def jsTrimTail (s : JStr) : JStr := (s.reverse.dropWhile isJsSpace).reverse

/-- JS String.prototype.trim. -/
def jsTrim (s : JStr) : JStr := jsTrimTail (jsTrimHead s)

/-- JS truthiness of a possibly-undefined string: present and non-empty. -/
def truthyO : Option JStr → Bool
  | none => false
  | some s => decide (s ≠ [])

/-- JS a || b on possibly-undefined strings: the first truthy operand. -/
def jsOrOpt (a b : Option JStr) : Option JStr := if truthyO a then a else b

/-- JS String(x || ""): the string when present, the empty string otherwise. -/
def getJs (o : Option JStr) : JStr := o.getD []

/-- The single space inserted between title and description by the template literal. -/
def spaceStr : JStr := " ".toList

/- ==========================================================================
   Keyword matcher (server.js unifiedScraper lines 906-913, scrapeWebsites
   lines 822-829): combined = (title + " " + desc).toLowerCase();
   found = KEYWORDS.some(k => combined.includes(k.toLowerCase())).
   ========================================================================== -/

/-- The keyword list of unifiedScraper (server.js lines 870-889). -/
def KEYWORDS_UNIFIED : List JStr :=
  [ "niger delta".toList, "militant".toList, "pipeline".toList,
    "oil bunkering".toList, "attack".toList, "kidnap".toList, "kill".toList,
    "conflict".toList, "hate".toList, "gunmen".toList, "riverine".toList,
    "hostage".toList, "herder".toList, "clash".toList, "violence".toList,
    "bomb".toList, "explosion".toList, "cultists".toList ]

/-- The keyword list of scrapeWebsites (server.js lines 802-806). -/
def KEYWORDS_SCRAPE : List JStr :=
  [ "kill".toList, "attack".toList, "hate".toList, "violence".toList,
    "threat".toList, "clash".toList, "fight".toList, "herder".toList,
    "conflict".toList, "riot".toList, "militant".toList, "beheaded".toList ]

/-- The lowercased combination of title and description built by the scraper. -/
def combinedText (title desc : JStr) : JStr := jsToLower (title ++ spaceStr ++ desc)

/-- The keyword matcher: KEYWORDS.some(k => combined.includes(k.toLowerCase())). -/
def matchesKeywords (ks : List JStr) (title desc : JStr) : Bool :=
  ks.any (fun k => jsIncludes (combinedText title desc) (jsToLower k))

/-- Spec-side reading of the matcher contract: keyword k occurs as a
case-insensitive substring of hay. -/
def occursCaseInsensitive (k hay : JStr) : Prop :=
  ∃ l r, l ++ (jsToLower k ++ r) = jsToLower hay

/- ==========================================================================
   Alert store and deduplication (server.js unifiedScraper lines 916-929):
   exists = await HateAlert.findOne({ text: title });
   if (!exists) { await HateAlert.create(alert); ... }
   The timestamp field of an alert plays no role in the dedup logic and is
   not modelled.  The store is the list of persisted alerts in insertion
   order; findOne by exact text match is List.find? on the text field.
   ========================================================================== -/

/-- A persisted HateAlert (text is the feed item title and the dedup key). -/
structure Alert where
  text : JStr
  url : JStr
deriving DecidableEq

/-- At most one alert per distinct text value. -/
def uniqueTexts (store : List Alert) : Prop :=
  store.Pairwise (fun x y => x.text ≠ y.text)

/-- The record-if-new operation of the alert store: look up an existing alert
by exact text match; if found, no mutation and created = false; otherwise
append the alert and created = true. -/
def recordIfNew (store : List Alert) (a : Alert) : List Alert × Bool :=
  match store.find? (fun b => b.text == a.text) with
  | some _ => (store, false)
  | none => (store ++ [a], true)

/- ==========================================================================
   Scraping cycle (server.js unifiedScraper lines 891-934).  One parsed feed
   item; fetching a feed either yields its items or throws (modelled by the
   FetchOutcome oracle).  The try block wraps the whole for-loop over FEEDS,
   so a fetch error ends the cycle; writes made before the error persist.
   ========================================================================== -/

/-- One parsed feed item as produced by the cheerio traversal. -/
structure FeedItem where
  title : JStr
  link : JStr
  desc : JStr
deriving DecidableEq

/-- Outcome of axios.get on one feed URL: parsed items, or a thrown fetch error. -/
inductive FetchOutcome
  | ok (items : List FeedItem)
  | fetchError
deriving DecidableEq

/-- Processing of a single item inside unifiedScraper: trim the extracted
fields, keyword-match the combined text, and on a match record the alert
if its title is new. -/
def processItem (store : List Alert) (it : FeedItem) : List Alert :=
  let title := jsTrim it.title
  let link := jsTrim it.link
  let desc := jsTrim it.desc
  if matchesKeywords KEYWORDS_UNIFIED title desc then
    (recordIfNew store { text := title, url := link }).1
  else store

/-- Processing of all items of one fetched feed, in document order. -/
def processFeedItems (store : List Alert) (items : List FeedItem) : List Alert :=
  items.foldl processItem store

/-- The for-loop over FEEDS inside the try block: feeds are fetched and
processed in order; a fetch error aborts the loop (second component true
when the cycle ended in the catch), keeping the writes made so far. -/
def cycleLoop (fetch : JStr → FetchOutcome) : List JStr → List Alert → List Alert × Bool
  | [], store => (store, false)
  | f :: rest, store =>
    match fetch f with
    | FetchOutcome.fetchError => (store, true)
    | FetchOutcome.ok items => cycleLoop fetch rest (processFeedItems store items)

/-- One full scraping cycle: the store after the try/catch completes. -/
def runCycle (fetch : JStr → FetchOutcome) (feeds : List JStr) (store : List Alert) : List Alert :=
  (cycleLoop fetch feeds store).1

/-- The feed URLs of unifiedScraper (server.js lines 864-868). -/
def FEED_VANGUARD : JStr := "https://www.vanguardngr.com/feed/".toList

def FEED_PUNCH : JStr := "https://punchng.com/feed/".toList

def FEED_ICIR : JStr := "https://www.icirnigeria.org/feed/".toList

def FEEDS_UNIFIED : List JStr := [FEED_VANGUARD, FEED_PUNCH, FEED_ICIR]

/- ==========================================================================
   Scheduler (server.js lines 30-31, 775-786, 859-860, 937).  State: the
   scraperRunning flag and the number of live loop instances (call chains of
   unifiedScraper kept alive through setTimeout).  Events:
   - start: the start-scraper handler sets scraperRunning = true and calls
     unifiedScraper() unconditionally; since the flag is now true the new
     call passes the guard and becomes a live instance.
   - stop: the stop-scraper handler sets scraperRunning = false.
   - tick: a pending setTimeout of one instance fires; the instance returns
     immediately when the flag is false (ending that chain), otherwise it
     runs a cycle and reschedules itself.
   ========================================================================== -/

/-- Scheduler state: the running flag and the number of live loop instances. -/
structure SchedState where
  running : Bool
  active : Nat
deriving DecidableEq

/-- Initial scheduler state: flag false, no loop instance. -/
def schedInit : SchedState := { running := false, active := 0 }

/-- Scheduler events. -/
inductive SchedEvent
  | start
  | stop
  | tick
deriving DecidableEq

/-- Scheduler transition, read off the socket handlers and the guard at the
top of unifiedScraper. -/
def schedStep : SchedState → SchedEvent → SchedState
  | st, SchedEvent.start => { running := true, active := st.active + 1 }
  | st, SchedEvent.stop => { running := false, active := st.active }
  | st, SchedEvent.tick =>
    if st.running then st else { running := st.running, active := st.active - 1 }

/-- The scheduler state reached from the initial state by a list of events. -/
def schedRun (evs : List SchedEvent) : SchedState := evs.foldl schedStep schedInit

/- ==========================================================================
   Location helpers (server.js lines 266-276).  normalizeStateName lowercases,
   removes every occurrence of the word "state" and trims; it is defined in
   server.js but never called.  locationMatchesState is a bidirectional
   case-insensitive substring check guarded by truthiness of both arguments.
   ========================================================================== -/

/-- Left-to-right non-overlapping removal of every occurrence of pat
(JS replace with a global pattern and empty replacement), run with explicit
fuel so that the recursion is structural. -/
def removeAllFuel (pat : JStr) : Nat → JStr → JStr
  | 0, s => s
  | _ + 1, [] => []
  | fuel + 1, c :: cs =>
    if pat ≠ [] && startsWithStr (c :: cs) pat then
      removeAllFuel pat fuel ((c :: cs).drop pat.length)
    else c :: removeAllFuel pat fuel cs

/-- Removal of every occurrence of pat from s. -/
def removeAllSub (pat s : JStr) : JStr := removeAllFuel pat s.length s

/-- The literal word removed by normalizeStateName. -/
def stateWord : JStr := "state".toList

/-- server.js normalizeStateName: empty for a falsy argument, otherwise
lowercase, remove "state", trim.  Dead code in server.js (no caller). -/
def normalizeStateName (s : Option JStr) : JStr :=
  match s with
  | none => []
  | some t => if t = [] then [] else jsTrim (removeAllSub stateWord (jsToLower t))

/-- server.js locationMatchesState: false when either argument is falsy,
otherwise case-insensitive substring containment in either direction. -/
def locationMatchesState (newsLocation subLocation : Option JStr) : Bool :=
  if !truthyO newsLocation || !truthyO subLocation then false
  else
    jsIncludes (jsToLower (getJs newsLocation)) (jsToLower (getJs subLocation))
      || jsIncludes (jsToLower (getJs subLocation)) (jsToLower (getJs newsLocation))

/- ==========================================================================
   Notification dispatcher (server.js notifySubscribers, lines 684-742).
   ========================================================================== -/

/-- A stored Subscription record (possibly-undefined free-text fields). -/
structure SubscriptionR where
  phone : Option JStr
  email : Option JStr
  location : Option JStr
  method : Option JStr
deriving DecidableEq

/-- The fields of a news record read by the dispatcher's control flow.  The
message body (title, categories, formatted date, description preview) only
feeds the send payload and is abstracted away. -/
structure NewsR where
  title : JStr
  location : Option JStr
deriving DecidableEq

/-- Observable effects of one notifySubscribers call. -/
inductive Effect
  | readSubscriptions
  | emailSend (rcpt : JStr)
  | waSend (rcpt : JStr)
  | smsLog (rcpt : Option JStr)
  | logInnerError
  | logOuterError
deriving DecidableEq

/-- A thrown JS exception (its payload is irrelevant to the control flow). -/
inductive JsErr
  | thrown
deriving DecidableEq

/-- s.method && s.method.toLowerCase().includes(kw). -/
def methodHas (s : SubscriptionR) (kw : JStr) : Bool :=
  truthyO s.method && jsIncludes (jsToLower (getJs s.method)) kw

def emailKW : JStr := "email".toList

def whatsappKW : JStr := "whatsapp".toList

def smsKW : JStr := "sms".toList

/-- Channel routing for one matched subscription (server.js lines 711-733):
method containing "email" routes to sendEmail with to = s.email || s.phone
(continue when both falsy); else "whatsapp" routes to sendWhatsApp with
to = s.phone || ""; else "sms" logs the SMS mock; else sendEmail to s.email
when present, and nothing otherwise. -/
def dispatchSub (s : SubscriptionR) : List Effect :=
  if methodHas s emailKW then
    let rcpt := jsOrOpt s.email s.phone
    if truthyO rcpt then [Effect.emailSend (getJs rcpt)] else []
  else if methodHas s whatsappKW then
    [Effect.waSend (if truthyO s.phone then getJs s.phone else [])]
  else if methodHas s smsKW then
    [Effect.smsLog s.phone]
  else if truthyO s.email then
    [Effect.emailSend (getJs s.email)]
  else []

/-- Per-subscriber body (server.js lines 703-733), without the try/catch:
subLoc = String(s.location || "").toLowerCase().trim(); continue when empty;
match by substring in either direction or locationMatchesState; on a match,
route by method. -/
def processSubPure (n : NewsR) (s : SubscriptionR) : List Effect :=
  let subLoc := jsTrim (jsToLower (getJs s.location))
  if subLoc = [] then []
  else if
      jsIncludes (jsToLower (getJs n.location)) subLoc
        || jsIncludes subLoc (jsToLower (getJs n.location))
        || locationMatchesState n.location s.location then
    dispatchSub s
  else []

/-- Per-subscriber body with a fault oracle: fails s models a JS exception
thrown anywhere while processing subscriber s. -/
def processOneSub (fails : SubscriptionR → Bool) (n : NewsR) (s : SubscriptionR) :
    Except JsErr (List Effect) :=
  if fails s then Except.error JsErr.thrown else Except.ok (processSubPure n s)

/-- The per-subscriber try/catch (server.js lines 702, 735-737): a thrown
error is caught and logged in the subscriber's own scope. -/
def handleOneSub (fails : SubscriptionR → Bool) (n : NewsR) (s : SubscriptionR) : List Effect :=
  match processOneSub fails n s with
  | Except.ok effs => effs
  | Except.error _ => [Effect.logInnerError]

/-- The for-loop over all subscriptions. -/
def notifyLoop (fails : SubscriptionR → Bool) (n : NewsR) : List SubscriptionR → List Effect
  | [] => []
  | s :: rest => handleOneSub fails n s ++ notifyLoop fails n rest

/-- Body of notifySubscribers inside the outer try: return immediately when
the news record or its location is falsy (before any store read); then read
all subscriptions (Subscription.find(), which may throw a store error,
modelled by storeFails) and run the loop. -/
def notifyBody (storeFails : Bool) (fails : SubscriptionR → Bool) (news : Option NewsR)
    (subs : List SubscriptionR) : Except JsErr (List Effect) :=
  match news with
  | none => Except.ok []
  | some n =>
    if !truthyO n.location then Except.ok []
    else if storeFails then Except.error JsErr.thrown
    else Except.ok (Effect.readSubscriptions :: notifyLoop fails n subs)

/-- notifySubscribers with its outer try/catch (lines 685, 739-741): an
escaping error is caught and logged, so the caller never sees an exception. -/
def notifySubscribers (storeFails : Bool) (fails : SubscriptionR → Bool) (news : Option NewsR)
    (subs : List SubscriptionR) : List Effect :=
  match notifyBody storeFails fails news subs with
  | Except.ok effs => effs
  | Except.error _ => [Effect.logOuterError]

/-- Whether an Except value is a normal return. -/
def isOkE (e : Except JsErr (List Effect)) : Bool :=
  match e with
  | Except.ok _ => true
  | Except.error _ => false

/-- Effects that are send attempts (a mock SMS log counts as the SMS sender). -/
def isSendEffect : Effect → Bool
  | Effect.emailSend _ => true
  | Effect.waSend _ => true
  | Effect.smsLog _ => true
  | _ => false

/-- Number of send attempts among a list of effects. -/
def countSends (effs : List Effect) : Nat := (effs.filter isSendEffect).length

/-- Whether the routing chain of dispatchSub reaches a sender for s. -/
def hasRoute (s : SubscriptionR) : Bool :=
  if methodHas s emailKW then truthyO s.email || truthyO s.phone
  else if methodHas s whatsappKW then true
  else if methodHas s smsKW then true
  else truthyO s.email

/-- The location-match condition actually implemented by notifySubscribers,
in simplified form: the trimmed lowercased subscription location is non-empty
and either it occurs in the lowercased report location, or the untrimmed
lowercased subscription location contains the lowercased report location. -/
def amendedMatchCond (n : NewsR) (s : SubscriptionR) : Bool :=
  let newsLoc := jsToLower (getJs n.location)
  let sl := jsToLower (getJs s.location)
  decide (jsTrim sl ≠ []) && (jsIncludes newsLoc (jsTrim sl) || jsIncludes sl newsLoc)

/- ==========================================================================
   Subscribe endpoint (server.js POST /subscribe-alert, lines 535-560).
   ========================================================================== -/

/-- The request body fields read by the subscribe handler. -/
structure SubscribeReq where
  phone : Option JStr
  email : Option JStr
  location : Option JStr
  method : Option JStr
deriving DecidableEq

/-- Outcome of the subscribe handler: 400 response, or the stored record. -/
inductive SubscribeResult
  | badRequest
  | created (sub : SubscriptionR)
deriving DecidableEq

def plusStr : JStr := "+".toList

def zeroStr : JStr := "0".toList

def cc234 : JStr := "+234".toList

/-- Phone normalization at creation time: trim; keep a "+" number as is;
replace a leading "0" by "+234"; otherwise prepend "+234". -/
def normalizePhone (raw : JStr) : JStr :=
  let p := jsTrim raw
  if startsWithStr p plusStr then p
  else if startsWithStr p zeroStr then cc234 ++ p.drop 1
  else cc234 ++ p

/-- The subscribe handler: reject when phone or location is falsy, otherwise
store the subscription with the normalized phone. -/
def subscribeAlert (req : SubscribeReq) : SubscribeResult :=
  if !truthyO req.phone || !truthyO req.location then SubscribeResult.badRequest
  else
    SubscribeResult.created
      { phone := some (normalizePhone (getJs req.phone)),
        email := req.email, location := req.location, method := req.method }

/- ==========================================================================
   Concrete inputs used by counterexamples and witnesses.
   ========================================================================== -/

/-- Fault oracle with no failing subscriber. -/
def noFail : SubscriptionR → Bool := fun _ => false

/-- Fault oracle where every subscriber's processing throws. -/
def allFail : SubscriptionR → Bool := fun _ => true

/-- Feed item whose title matches keyword "attack" of the unified list. -/
def itemCEx : FeedItem :=
  { title := "Gunmen attack village".toList,
    link := "https://example.org/a".toList, desc := [] }

/-- The alert stored for itemCEx. -/
def alertCEx : Alert :=
  { text := "Gunmen attack village".toList, url := "https://example.org/a".toList }

/-- Fetch oracle for the cycle-isolation claim: the vanguard feed throws,
the punch feed yields one matching item, the icir feed is empty. -/
def fetchCEx (f : JStr) : FetchOutcome :=
  if f = FEED_PUNCH then FetchOutcome.ok [itemCEx]
  else if f = FEED_ICIR then FetchOutcome.ok []
  else FetchOutcome.fetchError

/-- Subscription whose location equals the report location only after
normalizeStateName. -/
def subC3 : SubscriptionR :=
  { phone := some ("+2348031234567".toList), email := some ("a@x.com".toList),
    location := some ("Rivers State".toList), method := some ("email".toList) }

/-- Report whose location matches subC3 only under the normalized-name check. -/
def newsC3 : NewsR := { title := "t".toList, location := some ("riversstate".toList) }

/-- Matched subscription with method "email" but neither email nor phone. -/
def subC4 : SubscriptionR :=
  { phone := none, email := none,
    location := some ("Rivers".toList), method := some ("email".toList) }

/-- Report whose location matches subC4. -/
def newsC4 : NewsR := { title := "t".toList, location := some ("Rivers".toList) }

/-- The method string of the WhatsApp routing scenario. -/
def wpMethod : JStr := "WhatsApp-preferred".toList

/-- Subscription with method "WhatsApp-preferred", an email and a phone. -/
def subWP : SubscriptionR :=
  { phone := some ("+2348012345678".toList), email := some ("a@x.com".toList),
    location := some ("Rivers".toList), method := some wpMethod }

/-- Subscription with method "Email", a phone and no email address. -/
def subC9 : SubscriptionR :=
  { phone := some ("+2347011122233".toList), email := none,
    location := some ("Delta".toList), method := some ("Email".toList) }

/-- Report with an empty location string. -/
def newsEmptyLoc : NewsR := { title := "t".toList, location := some [] }

/-- Subscription whose location is whitespace-only. -/
def subBlankLoc : SubscriptionR :=
  { phone := some ("+2348000000000".toList), email := none,
    location := some ("   ".toList), method := some ("sms".toList) }

/-- Subscribe request with a leading-zero phone. -/
def reqC8 : SubscribeReq :=
  { phone := some ("08031112222".toList), email := none,
    location := some ("Rivers State".toList), method := some ("WhatsApp".toList) }

/-- Subscribe request with no phone. -/
def reqC8bad : SubscribeReq :=
  { phone := none, email := none,
    location := some ("Rivers".toList), method := none }

/-- Generic news record used by witnesses of the dispatcher loop. -/
def newsW : NewsR := { title := "t".toList, location := some ("Rivers".toList) }

/- ==========================================================================
   Helper lemmas about the embedded JS string operations.
   ========================================================================== -/

theorem startsWithStr_iff (s p : JStr) : startsWithStr s p = true ↔ ∃ t, p ++ t = s := by
  induction p generalizing s with
  | nil => simp [startsWithStr]
  | cons q qs ih =>
    cases s with
    | nil => simp [startsWithStr]
    | cons c cs =>
      simp only [startsWithStr, Bool.and_eq_true, beq_iff_eq, ih, List.cons_append,
        List.cons.injEq]
      constructor
      · rintro ⟨h1, t, h2⟩
        exact ⟨t, h1.symm, h2⟩
      · rintro ⟨t, h1, h2⟩
        exact ⟨h1.symm, t, h2⟩

theorem jsIncludes_iff (s sub : JStr) :
    jsIncludes s sub = true ↔ ∃ l r, l ++ (sub ++ r) = s := by
  induction s with
  | nil =>
    cases sub with
    | nil => simp [jsIncludes, startsWithStr]
    | cons x xs => simp [jsIncludes, startsWithStr]
  | cons c cs ih =>
    simp only [jsIncludes, Bool.or_eq_true, startsWithStr_iff, ih]
    constructor
    · rintro (⟨t, ht⟩ | ⟨l, r, h⟩)
      · exact ⟨[], t, by simpa using ht⟩
      · exact ⟨c :: l, r, by simp [h]⟩
    · rintro ⟨l, r, h⟩
      cases l with
      | nil => exact Or.inl ⟨r, by simpa using h⟩
      | cons x xs =>
        have hx : x = c ∧ xs ++ (sub ++ r) = cs := by simpa using h
        exact Or.inr ⟨xs, r, hx.2⟩

theorem jsIncludes_trans (a b c : JStr) (h1 : jsIncludes b c = true)
    (h2 : jsIncludes a b = true) : jsIncludes a c = true := by
  rw [jsIncludes_iff] at h1 h2 ⊢
  obtain ⟨l1, r1, hb⟩ := h1
  obtain ⟨l2, r2, ha⟩ := h2
  exact ⟨l2 ++ l1, r1 ++ r2, by rw [← ha, ← hb]; simp⟩

theorem jsIncludes_nil_pat (s : JStr) : jsIncludes s [] = true := by
  cases s <;> simp [jsIncludes, startsWithStr]

theorem jsTrimHead_decomp (s : JStr) : ∃ l, l ++ jsTrimHead s = s := by
  refine ⟨s.takeWhile isJsSpace, ?_⟩
  rw [jsTrimHead]
  exact List.takeWhile_append_dropWhile isJsSpace s

theorem jsTrimTail_decomp (s : JStr) : ∃ r, jsTrimTail s ++ r = s := by
  refine ⟨(s.reverse.takeWhile isJsSpace).reverse, ?_⟩
  rw [jsTrimTail, ← List.reverse_append, List.takeWhile_append_dropWhile,
    List.reverse_reverse]

theorem jsTrim_occurs (s : JStr) : jsIncludes s (jsTrim s) = true := by
  rw [jsIncludes_iff]
  obtain ⟨l, hl⟩ := jsTrimHead_decomp s
  obtain ⟨r, hr⟩ := jsTrimTail_decomp (jsTrimHead s)
  refine ⟨l, r, ?_⟩
  simp only [jsTrim]
  rw [hr, hl]

theorem truthyO_of_trim_ne (o : Option JStr) (h : jsTrim (jsToLower (getJs o)) ≠ []) :
    truthyO o = true := by
  cases o with
  | none => simp [getJs, jsToLower, jsTrim, jsTrimHead, jsTrimTail] at h
  | some s =>
    cases s with
    | nil => simp [getJs, jsToLower, jsTrim, jsTrimHead, jsTrimTail] at h
    | cons c cs => simp [truthyO]

theorem getJs_of_not_truthy (o : Option JStr) (h : truthyO o = false) : getJs o = [] := by
  cases o with
  | none => rfl
  | some s =>
    cases s with
    | nil => rfl
    | cons c cs => simp [truthyO] at h

theorem truthyO_jsOrOpt (a b : Option JStr) :
    truthyO (jsOrOpt a b) = (truthyO a || truthyO b) := by
  unfold jsOrOpt
  cases h : truthyO a <;> simp [h]

/- ==========================================================================
   Claim theorems.
   ========================================================================== -/

/-- C1: the alert store's record-if-new operation deduplicates by exact text:
when an alert with the same text exists, the store is unchanged and nothing is
created; otherwise exactly the one new alert is appended; invoked twice with
the same title it creates on the first call and skips on the second; and it
preserves the invariant of at most one alert per distinct text. -/
theorem recordIfNew_dedup_spec (store : List Alert) (a : Alert) :
    ((∃ b ∈ store, b.text = a.text) → recordIfNew store a = (store, false)) ∧
    ((∀ b ∈ store, b.text ≠ a.text) → recordIfNew store a = (store ++ [a], true)) ∧
    recordIfNew ((recordIfNew store a).1) a = ((recordIfNew store a).1, false) ∧
    (uniqueTexts store → uniqueTexts ((recordIfNew store a).1)) := by
  cases h : store.find? (fun b => b.text == a.text) with
  | some b =>
    refine ⟨fun _ => by simp [recordIfNew, h], ?_, by simp [recordIfNew, h], ?_⟩
    · intro hall
      have hb := List.find?_some h
      have hmem : b ∈ store := List.mem_of_find?_eq_some h
      exact absurd (by simpa using hb) (hall b hmem)
    · intro hu
      simpa [recordIfNew, h] using hu
  | none =>
    have hnone : ∀ b ∈ store, ¬(b.text == a.text) = true := List.find?_eq_none.mp h
    have h2 : (store ++ [a]).find? (fun b => b.text == a.text) = some a := by
      simp [List.find?_append, h]
    refine ⟨?_, fun _ => by simp [recordIfNew, h], ?_, ?_⟩
    · rintro ⟨b, hb, he⟩
      exact absurd (by simpa using he) (hnone b hb)
    · simp [recordIfNew, h, h2]
    · intro hu
      simp only [recordIfNew, h]
      rw [uniqueTexts, List.pairwise_append]
      refine ⟨hu, List.pairwise_singleton _ _, ?_⟩
      intro x hx y hy
      simp only [List.mem_singleton] at hy
      subst hy
      intro he
      exact hnone x hx (by simpa using he)

/-- Witness for C1 at a concrete store and alert: first call creates, second
call with the same title skips and leaves the store unchanged. -/
theorem recordIfNew_dedup_spec_witness :
    recordIfNew [] { text := "x".toList, url := "u".toList } =
      ([{ text := "x".toList, url := "u".toList }], true) ∧
    recordIfNew [{ text := "x".toList, url := "u".toList }]
        { text := "x".toList, url := "u".toList } =
      ([{ text := "x".toList, url := "u".toList }], false) := by
  constructor
  · exact (recordIfNew_dedup_spec [] { text := "x".toList, url := "u".toList }).2.1
      (by simp)
  · exact (recordIfNew_dedup_spec [{ text := "x".toList, url := "u".toList }]
      { text := "x".toList, url := "u".toList }).1
      ⟨{ text := "x".toList, url := "u".toList }, by simp, rfl⟩

/-- C2: the keyword matcher returns true exactly when some keyword of the list
occurs as a case-insensitive substring of title + " " + description; it is a
pure function of its inputs (a Lean function of ks, title, desc). -/
theorem matcher_iff_keyword_substring (ks : List JStr) (title desc : JStr) :
    matchesKeywords ks title desc = true ↔
      ∃ k ∈ ks, occursCaseInsensitive k (title ++ spaceStr ++ desc) := by
  rw [matchesKeywords, List.any_eq_true]
  constructor
  · rintro ⟨k, hk, hinc⟩
    obtain ⟨l, r, hlr⟩ := (jsIncludes_iff _ _).mp hinc
    exact ⟨k, hk, l, r, by simpa [combinedText] using hlr⟩
  · rintro ⟨k, hk, l, r, hlr⟩
    exact ⟨k, hk, (jsIncludes_iff _ _).mpr ⟨l, r, by simpa [combinedText] using hlr⟩⟩

theorem notifyLoop_append (fails : SubscriptionR → Bool) (n : NewsR)
    (l1 l2 : List SubscriptionR) :
    notifyLoop fails n (l1 ++ l2) = notifyLoop fails n l1 ++ notifyLoop fails n l2 := by
  induction l1 with
  | nil => simp [notifyLoop]
  | cons s rest ih => simp [notifyLoop, ih]

theorem countSends_dispatchSub (s : SubscriptionR) :
    countSends (dispatchSub s) = if hasRoute s then 1 else 0 := by
  simp only [dispatchSub, hasRoute, truthyO_jsOrOpt]
  split
  · split <;> simp [countSends, isSendEffect]
  · split
    · simp [countSends, isSendEffect]
    · split
      · simp [countSends, isSendEffect]
      · split <;> simp [countSends, isSendEffect]

theorem processSubPure_eq_amended (n : NewsR) (s : SubscriptionR) :
    processSubPure n s = if amendedMatchCond n s then dispatchSub s else [] := by
  by_cases h0 : jsTrim (jsToLower (getJs s.location)) = []
  · simp [processSubPure, amendedMatchCond, h0]
  · have hsl : truthyO s.location = true := truthyO_of_trim_ne s.location h0
    have key :
        (jsIncludes (jsToLower (getJs n.location)) (jsTrim (jsToLower (getJs s.location)))
            || jsIncludes (jsTrim (jsToLower (getJs s.location)))
              (jsToLower (getJs n.location))
            || locationMatchesState n.location s.location)
          = (jsIncludes (jsToLower (getJs n.location)) (jsTrim (jsToLower (getJs s.location)))
            || jsIncludes (jsToLower (getJs s.location)) (jsToLower (getJs n.location))) := by
      by_cases hn : truthyO n.location = true
      · have hC : locationMatchesState n.location s.location
            = (jsIncludes (jsToLower (getJs n.location)) (jsToLower (getJs s.location))
              || jsIncludes (jsToLower (getJs s.location))
                (jsToLower (getJs n.location))) := by
          simp [locationMatchesState, hn, hsl]
        rw [hC]
        apply Bool.eq_iff_iff.mpr
        simp only [Bool.or_eq_true]
        constructor
        · rintro ((hA | hB) | (hC1 | hD))
          · exact Or.inl hA
          · exact Or.inr (jsIncludes_trans _ _ _ hB (jsTrim_occurs _))
          · exact Or.inl (jsIncludes_trans _ _ _ (jsTrim_occurs _) hC1)
          · exact Or.inr hD
        · rintro (hA | hD)
          · exact Or.inl (Or.inl hA)
          · exact Or.inr (Or.inr hD)
      · have hn' : truthyO n.location = false := by simpa using hn
        have hnl : jsToLower (getJs n.location) = [] := by
          rw [getJs_of_not_truthy n.location hn']
          rfl
        have hC : locationMatchesState n.location s.location = false := by
          simp [locationMatchesState, hn']
        rw [hC, hnl]
        simp [jsIncludes_nil_pat]
    simp [processSubPure, amendedMatchCond, h0, key]

/-- C3 (amended): notifySubscribers attempts exactly one send to a subscription
S, for a report R, iff S's lowercased-and-trimmed location is non-empty, the
routing chain reaches a sender for S, and either the trimmed S.location occurs
case-insensitively in R.location or the untrimmed S.location contains
R.location case-insensitively.  The spec's third, normalized-name condition
does not exist in the code: normalizeStateName has no caller, and the code's
third check (locationMatchesState) is another bidirectional substring test
subsumed by the two substring conditions. -/
theorem notify_match_characterization (n : NewsR) (s : SubscriptionR) :
    countSends (processSubPure n s) =
      if amendedMatchCond n s && hasRoute s then 1 else 0 := by
  rw [processSubPure_eq_amended]
  by_cases h : amendedMatchCond n s = true
  · simp [h, countSends_dispatchSub]
  · have h' : amendedMatchCond n s = false := by simpa using h
    simp [h', countSends]

/-- C3 counterexample: subscription location "Rivers State" and report location
"riversstate" are equal after normalizeStateName (the claim's condition (3)),
neither is a case-insensitive substring of the other, the subscription has a
usable email route, and yet notifySubscribers performs the store read and zero
sends — refuting the claim that condition (3) suffices for a send attempt. -/
theorem notify_normalized_name_cex :
    normalizeStateName newsC3.location = normalizeStateName subC3.location ∧
    jsIncludes (jsToLower (getJs newsC3.location)) (jsToLower (getJs subC3.location))
      = false ∧
    jsIncludes (jsToLower (getJs subC3.location)) (jsToLower (getJs newsC3.location))
      = false ∧
    hasRoute subC3 = true ∧
    notifySubscribers false noFail (some newsC3) [subC3] = [Effect.readSubscriptions] := by
  decide

/-- C4 (amended): the sender is selected by case-insensitive substring
inspection of method, in order: method containing "email" routes to the email
sender with recipient email-or-phone and skips the subscriber when both are
absent; otherwise "whatsapp" routes to the messaging sender; otherwise "sms"
to the SMS mock; otherwise the email sender when an email address is present
and a silent skip when not; and a subscription with method
"WhatsApp-preferred" routes to the messaging sender even when an email
address is present. -/
theorem dispatch_routing_order (s : SubscriptionR) (phone email : JStr)
    (loc : Option JStr) :
    (methodHas s emailKW = true →
      dispatchSub s =
        if truthyO (jsOrOpt s.email s.phone) then
          [Effect.emailSend (getJs (jsOrOpt s.email s.phone))]
        else []) ∧
    (methodHas s emailKW = false → methodHas s whatsappKW = true →
      dispatchSub s = [Effect.waSend (if truthyO s.phone then getJs s.phone else [])]) ∧
    (methodHas s emailKW = false → methodHas s whatsappKW = false →
      methodHas s smsKW = true → dispatchSub s = [Effect.smsLog s.phone]) ∧
    (methodHas s emailKW = false → methodHas s whatsappKW = false →
      methodHas s smsKW = false →
      dispatchSub s =
        if truthyO s.email then [Effect.emailSend (getJs s.email)] else []) ∧
    dispatchSub { phone := some phone, email := some email, location := loc,
                  method := some wpMethod } =
      [Effect.waSend (if truthyO (some phone) then phone else [])] := by
  refine ⟨?_, ?_, ?_, ?_, ?_⟩
  · intro h1
    simp [dispatchSub, h1]
  · intro h1 h2
    simp [dispatchSub, h1, h2]
  · intro h1 h2 h3
    simp [dispatchSub, h1, h2, h3]
  · intro h1 h2 h3
    simp [dispatchSub, h1, h2, h3]
  · have hE : methodHas { phone := some phone, email := some email, location := loc,
                           method := some wpMethod } emailKW = false := rfl
    have hW : methodHas { phone := some phone, email := some email, location := loc,
                           method := some wpMethod } whatsappKW = true := rfl
    simp [dispatchSub, hE, hW, getJs]

/-- Witness for C4 at a concrete subscription with method "WhatsApp-preferred",
an email address and a phone: the messaging sender is chosen. -/
theorem dispatch_routing_order_witness :
    dispatchSub subWP = [Effect.waSend ("+2348012345678".toList)] := by
  have h := (dispatch_routing_order subWP [] [] none).2.1 (by decide) (by decide)
  exact h.trans (by decide)

/-- C4 counterexample: a location-matched subscription with method "email" but
neither an email address nor a phone is skipped (no send effect at all),
refuting the claim that a method containing "email" always routes to the email
sender. -/
theorem dispatch_email_no_recipient_cex :
    methodHas subC4 emailKW = true ∧
    jsIncludes (jsToLower (getJs newsC4.location))
      (jsTrim (jsToLower (getJs subC4.location))) = true ∧
    processSubPure newsC4 subC4 = [] := by
  decide

/-- C9: in the email routing branch, a subscription without an email address
but with a phone gets the email sender invoked with the phone string as
recipient; the subscriber is skipped exactly when both email and phone are
absent (falsy). -/
theorem email_branch_phone_fallback (s : SubscriptionR)
    (hm : methodHas s emailKW = true) :
    (truthyO s.email = false → truthyO s.phone = true →
      dispatchSub s = [Effect.emailSend (getJs s.phone)]) ∧
    (dispatchSub s = [] ↔ truthyO s.email = false ∧ truthyO s.phone = false) := by
  constructor
  · intro he hp
    simp [dispatchSub, hm, jsOrOpt, he, hp]
  · by_cases he : truthyO s.email = true
    · simp [dispatchSub, hm, jsOrOpt, he]
    · have he' : truthyO s.email = false := by simpa using he
      by_cases hp : truthyO s.phone = true
      · simp [dispatchSub, hm, jsOrOpt, he', hp]
      · have hp' : truthyO s.phone = false := by simpa using hp
        simp [dispatchSub, hm, jsOrOpt, he', hp']

/-- Witness for C9: subscription with method "Email", no email address and a
phone; the email sender is invoked with the phone as recipient. -/
theorem email_branch_phone_fallback_witness :
    dispatchSub subC9 = [Effect.emailSend ("+2347011122233".toList)] := by
  have h := (email_branch_phone_fallback subC9 (by decide)).1 (by decide) (by decide)
  exact h.trans (by decide)

/-- C5 counterexample: from the initial state, one start signal yields one
active loop instance, and a second start signal without an intervening stop
yields two concurrently active loop instances — so the second start is not a
no-op and the single-instance invariant fails in a reachable state. -/
theorem scheduler_double_start_cex :
    (schedRun [SchedEvent.start]).active = 1 ∧
    (schedRun [SchedEvent.start, SchedEvent.start]).active = 2 ∧
    (schedRun [SchedEvent.start, SchedEvent.start]).running = true := by
  exact ⟨rfl, rfl, rfl⟩

/-- C5 (amended): a start signal always sets the running flag and launches one
additional loop instance, whatever the current state (the handler never checks
the flag before invoking the loop); hence n consecutive start signals leave n
more live loop instances. -/
theorem scheduler_start_spawns_instance (st : SchedState) (n : Nat) :
    (schedStep st SchedEvent.start).running = true ∧
    (schedStep st SchedEvent.start).active = st.active + 1 ∧
    ((List.replicate n SchedEvent.start).foldl schedStep st).active = st.active + n := by
  refine ⟨rfl, rfl, ?_⟩
  induction n generalizing st with
  | zero => simp
  | succ m ih =>
    rw [List.replicate_succ, List.foldl_cons, ih]
    show (schedStep st SchedEvent.start).active + m = st.active + (m + 1)
    simp [schedStep]
    omega

/-- C6 (amended): a fetch failure on one feed is caught at the scope of the
whole cycle, not per-feed: the feeds before the failing one are fully
processed and their writes persist, while the failing feed and every feed
after it are skipped for that cycle (the cycle result equals the run over the
prefix alone), and the cycle ends through the catch branch. -/
theorem cycle_error_aborts_rest (fetch : JStr → FetchOutcome) (pre post : List JStr)
    (f : JStr) (store : List Alert) (hf : fetch f = FetchOutcome.fetchError)
    (hpre : ∀ g ∈ pre, fetch g ≠ FetchOutcome.fetchError) :
    runCycle fetch (pre ++ f :: post) store = runCycle fetch pre store ∧
    (cycleLoop fetch (pre ++ f :: post) store).2 = true := by
  revert hpre
  induction pre generalizing store with
  | nil =>
    intro _
    refine ⟨?_, ?_⟩ <;> simp [runCycle, cycleLoop, hf]
  | cons g gs ih =>
    intro hpre
    have hg : fetch g ≠ FetchOutcome.fetchError := hpre g (by simp)
    cases hcase : fetch g with
    | fetchError => exact absurd hcase hg
    | ok items =>
      have hpre2 : ∀ x ∈ gs, fetch x ≠ FetchOutcome.fetchError :=
        fun x hx => hpre x (List.mem_cons_of_mem g hx)
      have hih := ih (processFeedItems store items) hpre2
      constructor
      · simp only [List.cons_append, runCycle, cycleLoop, hcase]
        exact hih.1
      · simp only [List.cons_append, cycleLoop, hcase]
        exact hih.2

/-- Witness for C6 (amended) at the concrete fetch oracle: with the vanguard
feed failing, the cycle over punch, vanguard, icir equals the cycle over punch
alone, and the cycle ends through the catch. -/
theorem cycle_error_aborts_rest_witness :
    runCycle fetchCEx ([FEED_PUNCH] ++ FEED_VANGUARD :: [FEED_ICIR]) [] =
      runCycle fetchCEx [FEED_PUNCH] [] ∧
    (cycleLoop fetchCEx ([FEED_PUNCH] ++ FEED_VANGUARD :: [FEED_ICIR]) []).2 = true := by
  exact cycle_error_aborts_rest fetchCEx [FEED_PUNCH] [FEED_ICIR] FEED_VANGUARD []
    (by decide) (by decide)

/-- C6 counterexample: the vanguard feed fails while the punch feed would
yield one matching item; the full cycle stores nothing, although a cycle over
the remaining feeds alone would have stored the alert — so a single feed's
fetch failure does not leave the remaining feeds unaffected. -/
theorem cycle_feed_failure_cex :
    fetchCEx FEED_VANGUARD = FetchOutcome.fetchError ∧
    fetchCEx FEED_PUNCH = FetchOutcome.ok [itemCEx] ∧
    runCycle fetchCEx FEEDS_UNIFIED [] = [] ∧
    runCycle fetchCEx [FEED_PUNCH, FEED_ICIR] [] = [alertCEx] := by
  decide

/-- C7: a thrown error while processing one subscriber is caught and logged in
that subscriber's own scope; the loop processes the preceding and the
remaining subscribers exactly as it would have, and the dispatcher body never
returns an exception to its caller (with the store read succeeding, every
send-side failure is absorbed). -/
theorem notify_subscriber_fault_isolation (fails : SubscriptionR → Bool) (n : NewsR)
    (pre post : List SubscriptionR) (s : SubscriptionR) (news : Option NewsR)
    (subs : List SubscriptionR) (hs : fails s = true) :
    notifyLoop fails n (pre ++ s :: post) =
      notifyLoop fails n pre ++ Effect.logInnerError :: notifyLoop fails n post ∧
    isOkE (notifyBody false fails news subs) = true := by
  constructor
  · rw [notifyLoop_append]
    simp [notifyLoop, handleOneSub, processOneSub, hs]
  · cases news with
    | none => rfl
    | some m =>
      by_cases hm : truthyO m.location = true
      · simp [notifyBody, hm, isOkE]
      · have hm2 : truthyO m.location = false := by simpa using hm
        simp [notifyBody, hm2, isOkE]

/-- Witness for C7: with an oracle making every subscriber throw, the failing
first subscriber is logged and the second is still processed, and the body
returns normally. -/
theorem notify_subscriber_fault_isolation_witness :
    notifyLoop allFail newsW [subBlankLoc, subC9] =
      notifyLoop allFail newsW [] ++
        Effect.logInnerError :: notifyLoop allFail newsW [subC9] ∧
    isOkE (notifyBody false allFail (some newsW) [subBlankLoc]) = true := by
  exact notify_subscriber_fault_isolation allFail newsW [] [subC9] subBlankLoc
    (some newsW) [subBlankLoc] rfl

theorem startsWithStr_cc234 (x : JStr) : startsWithStr (cc234 ++ x) plusStr = true := by
  have h1 : cc234 = '+' :: "234".toList := by decide
  have h2 : plusStr = ['+'] := by decide
  rw [h1, h2]
  simp [startsWithStr]

/-- C8: the subscribe endpoint rejects a request with a falsy phone or
location and creates nothing; an accepted request stores the phone normalized
at creation time: a trimmed phone already starting with "+" is stored as
given, a leading "0" is replaced by "+234", and the stored phone always
begins with "+". -/
theorem subscribe_phone_normalization (req : SubscribeReq) (p : JStr) :
    ((truthyO req.phone = false ∨ truthyO req.location = false) →
      subscribeAlert req = SubscribeResult.badRequest) ∧
    (truthyO req.phone = true → truthyO req.location = true →
      subscribeAlert req = SubscribeResult.created
        { phone := some (normalizePhone (getJs req.phone)),
          email := req.email, location := req.location, method := req.method }) ∧
    (startsWithStr (jsTrim p) plusStr = true → normalizePhone p = jsTrim p) ∧
    (startsWithStr (jsTrim p) plusStr = false →
      startsWithStr (jsTrim p) zeroStr = true →
      normalizePhone p = cc234 ++ (jsTrim p).drop 1) ∧
    startsWithStr (normalizePhone p) plusStr = true := by
  refine ⟨?_, ?_, ?_, ?_, ?_⟩
  · rintro (h | h) <;> simp [subscribeAlert, h]
  · intro h1 h2
    simp [subscribeAlert, h1, h2]
  · intro h
    simp [normalizePhone, h]
  · intro h1 h2
    simp [normalizePhone, h1, h2]
  · by_cases h1 : startsWithStr (jsTrim p) plusStr = true
    · rw [show normalizePhone p = jsTrim p from by simp [normalizePhone, h1]]
      exact h1
    · have h1f : startsWithStr (jsTrim p) plusStr = false := by simpa using h1
      by_cases h2 : startsWithStr (jsTrim p) zeroStr = true
      · rw [show normalizePhone p = cc234 ++ (jsTrim p).drop 1 from by
          simp [normalizePhone, h1f, h2]]
        exact startsWithStr_cc234 _
      · have h2f : startsWithStr (jsTrim p) zeroStr = false := by simpa using h2
        rw [show normalizePhone p = cc234 ++ jsTrim p from by
          simp [normalizePhone, h1f, h2f]]
        exact startsWithStr_cc234 _

/-- Witness for C8: the leading-zero phone "08031112222" is stored as
"+2348031112222", and a request without a phone is rejected. -/
theorem subscribe_phone_normalization_witness :
    subscribeAlert reqC8 = SubscribeResult.created
      { phone := some ("+2348031112222".toList), email := none,
        location := some ("Rivers State".toList), method := some ("WhatsApp".toList) } ∧
    subscribeAlert reqC8bad = SubscribeResult.badRequest := by
  constructor
  · have h := (subscribe_phone_normalization reqC8 []).2.1 (by decide) (by decide)
    exact h.trans (by decide)
  · exact (subscribe_phone_normalization reqC8bad []).1 (Or.inl (by decide))

/-- C10: notifySubscribers invoked with a missing news record, or with a falsy
report location, returns with no effects at all — in particular zero sends and
no subscription-store read; and a subscription whose location is empty or
whitespace-only receives zero sends regardless of the report or of failures
elsewhere. -/
theorem notify_empty_location_skips (storeFails : Bool)
    (fails fails2 : SubscriptionR → Bool) (subs : List SubscriptionR)
    (n n2 : NewsR) (s : SubscriptionR) :
    notifySubscribers storeFails fails none subs = [] ∧
    (truthyO n.location = false → notifySubscribers storeFails fails (some n) subs = []) ∧
    (jsTrim (jsToLower (getJs s.location)) = [] →
      countSends (handleOneSub fails2 n2 s) = 0) := by
  refine ⟨rfl, ?_, ?_⟩
  · intro h
    simp [notifySubscribers, notifyBody, h]
  · intro h
    by_cases hf : fails2 s = true
    · simp [handleOneSub, processOneSub, hf, countSends, isSendEffect]
    · have hf2 : fails2 s = false := by simpa using hf
      simp [handleOneSub, processOneSub, hf2, processSubPure, h, countSends]

/-- Witness for C10: a report with an empty location produces no effects, and
a whitespace-only subscription location yields zero sends. -/
theorem notify_empty_location_skips_witness :
    notifySubscribers false noFail none [subBlankLoc] = [] ∧
    notifySubscribers false noFail (some newsEmptyLoc) [subBlankLoc] = [] ∧
    countSends (handleOneSub noFail newsEmptyLoc subBlankLoc) = 0 := by
  have h := notify_empty_location_skips false noFail noFail [subBlankLoc]
    newsEmptyLoc newsEmptyLoc subBlankLoc
  exact ⟨h.1, h.2.1 (by decide), h.2.2 (by decide)⟩

end Ciepd
